import Mathlib

/-!
Verification of the diff-signal extraction and meaningfulness classification
pipeline of `github_org_active_forks_insights.py`.

Strings are modelled as `List Char` (`Str`). Python regular expressions used
by the source are modelled by a small backtracking matcher over a pattern AST
(`RItem`): every pattern appearing in the source is built only from literal
strings, ordered literal alternations, greedy character-class repetitions
(a single one of which is capturing), and greedy optional groups, so the AST
below covers them exactly. Matching follows Python `re` semantics: leftmost
position first, alternatives in written order, greedy quantifiers with
backtracking.
-/

namespace ForkInsights

abbrev Str := List Char

/-- Python `str.lower()` (ASCII inputs). -/
def lower (s : Str) : Str := s.map Char.toLower

/-- Python `\s` / `str.strip()` whitespace set. -/
def isPySpace (c : Char) : Bool :=
  c = ' ' || c = '\t' || c = '\n' || c = '\r' || c = '\x0b' || c = '\x0c'

/-- Python `\w` (ASCII range). -/
def isWord (c : Char) : Bool := c.isAlphanum || c = '_'

/-- Python `str.strip()`. -/
def stripChars (s : Str) : Str :=
  ((s.dropWhile isPySpace).reverse.dropWhile isPySpace).reverse

/-- Python substring test `needle in hay`. -/
def isSubstr (needle : Str) : Str → Bool
  | [] => needle.isPrefixOf []
  | c :: cs => needle.isPrefixOf (c :: cs) || isSubstr needle cs

/-- Python `str.split(sep)` for a one-character separator
    (keeps empty pieces, always non-empty result). -/
def splitOnChar (sep : Char) : Str → List Str
  | [] => [[]]
  | c :: rest =>
    if c = sep then [] :: splitOnChar sep rest
    else
      match splitOnChar sep rest with
      | [] => [[c]]
      | l :: ls => (c :: l) :: ls

/-- Python `str.split('\n')`. -/
def splitNl : Str → List Str := splitOnChar '\n'

/-- Python `'\n'.join(...)`. -/
def joinNl (ls : List Str) : Str := (ls.intersperse ['\n']).flatten

/-- Python `', '.join(...)`. -/
def joinCommaSpace (ls : List Str) : Str := (ls.intersperse (", ".toList)).flatten

/-- Python `sep.join(...)` for an arbitrary separator. -/
def joinWith (sep : Str) (ls : List Str) : Str := (ls.intersperse sep).flatten

/-- Final path component: pathlib `Path(p).name`. -/
def pathName (s : Str) : Str :=
  (((splitOnChar '/' s).filter (· ≠ [])).getLast?).getD []

/-- Index of the last `.` in a string, if any. -/
def rfindDot (s : Str) : Option Nat :=
  (List.range s.length).foldl
    (fun acc i => if s.get? i = some '.' then some i else acc) none

/-- pathlib `Path(p).suffix`: the extension of the final component including
    the leading dot; empty when the only dot is leading or there is none
    (`0 < i < len(name) - 1` in the CPython source). -/
def suffixOf (s : Str) : Str :=
  let name := pathName s
  match rfindDot name with
  | some i => if 0 < i ∧ i < name.length - 1 then name.drop i else []
  | none => []

/-! ### A small backtracking regex matcher

Items of a pattern sequence. Every regular expression used by the source
decomposes into these forms. At most one `grp` item occurs per pattern
(every source pattern that the pipeline consumes through `findall` exposes
exactly one capturing group per alternative); the matcher returns that
group's text. -/

inductive RItem where
  /-- literal string -/
  | lit (s : Str)
  /-- ordered alternation of literal strings, e.g. `(?:a|b|c)`;
      an optional alternation `(?:a|b)?` carries `""` as last alternative -/
  | alts (ss : List Str)
  /-- greedy character-class repetition `p{lo,hi}` (`hi = none` unbounded) -/
  | rep (p : Char → Bool) (lo : Nat) (hi : Option Nat)
  /-- capturing greedy character-class repetition `(p{lo,hi})` -/
  | grp (p : Char → Bool) (lo : Nat) (hi : Option Nat)
  /-- two items in sequence (used to build multi-item `.opt` bodies) -/
  | seq (a b : RItem)
  /-- greedy optional group `(?:...)?` -/
  | opt (sub : RItem)
  /-- opening marker of a general capturing group `(` -/
  | gopen
  /-- closing marker of a general capturing group `)`: the capture is the
      text consumed since the matching `gopen` (used for source groups that
      are not a single character-class repetition, e.g. `(\w+(?:\s+\w+)?)`,
      and, wrapped around a whole pattern, for the full-match strings that
      `findall` returns for patterns without any group) -/
  | gclose

/-- Size of one item; decreases when `seq`/`opt` are unfolded. -/
def isize : RItem → Nat
  | .lit _ => 1
  | .alts _ => 1
  | .rep _ _ _ => 1
  | .grp _ _ _ => 1
  | .seq a b => 2 + isize a + isize b
  | .opt sub => 2 + isize sub
  | .gopen => 1
  | .gclose => 1

/-- Size of a pattern sequence; every step of the matcher strictly
    decreases it, so it bounds the fuel the matcher needs. -/
def lsize : List RItem → Nat
  | [] => 1
  | i :: is => isize i + lsize is

/-- Try `f (lo + n)`, `f (lo + n - 1)`, ..., `f lo` in this order and return
    the first success: greedy backtracking over a repetition count. -/
def descend (f : Nat → Option α) (lo : Nat) : Nat → Option α
  | 0 => f lo
  | n + 1 =>
    match f (lo + n + 1) with
    | some a => some a
    | none => descend f lo n

/-- Match a pattern sequence at the start of `s`, Python `re` style:
    alternatives in order, quantifiers greedy, full backtracking. On success
    returns the capture of the (unique) group of the pattern - either a
    `grp` item or a `gopen`/`gclose` pair - together with the rest of the
    string after the match. The `gs` argument remembers the suffix at the
    last `gopen`, so a `gclose` reached after backtracking recomputes the
    capture for the current path, exactly as Python does. Structural
    recursion on a fuel argument; every call strictly decreases `lsize`
    (dropping the head item, or unfolding a `seq`/`opt` node, which loses
    two size units), so the fuel `lsize is` supplied by `matchItems` can
    never run out (`lsize [] = 1`). -/
def matchItemsF : Nat → List RItem → Str → Option Str → Option (Str × Str)
  | 0, _, _, _ => none
  | _ + 1, [], s, _ => some ([], s)
  | fuel + 1, .lit l :: is, s, gs =>
    if l.isPrefixOf s then matchItemsF fuel is (s.drop l.length) gs else none
  | fuel + 1, .alts ss :: is, s, gs =>
    ss.findSome? fun a =>
      if a.isPrefixOf s then matchItemsF fuel is (s.drop a.length) gs else none
  | fuel + 1, .rep p lo hi :: is, s, gs =>
    let run := (s.takeWhile p).length
    let hiC := match hi with | none => run | some h => min h run
    if hiC < lo then none
    else descend (fun k => matchItemsF fuel is (s.drop k) gs) lo (hiC - lo)
  | fuel + 1, .grp p lo hi :: is, s, gs =>
    let run := (s.takeWhile p).length
    let hiC := match hi with | none => run | some h => min h run
    if hiC < lo then none
    else descend
      (fun k => (matchItemsF fuel is (s.drop k) gs).map (fun r => (s.take k, r.2)))
      lo (hiC - lo)
  | fuel + 1, .seq a b :: is, s, gs => matchItemsF fuel (a :: b :: is) s gs
  | fuel + 1, .opt sub :: is, s, gs =>
    match matchItemsF fuel (sub :: is) s gs with
    | some r => some r
    | none => matchItemsF fuel is s gs
  | fuel + 1, .gopen :: is, s, _ => matchItemsF fuel is s (some s)
  | fuel + 1, .gclose :: is, s, gs =>
    match gs with
    | some st =>
      (matchItemsF fuel is s none).map (fun r => (st.take (st.length - s.length), r.2))
    | none => none

/-- Match a pattern sequence at the start of `s`. -/
def matchItems (is : List RItem) (s : Str) : Option (Str × Str) :=
  matchItemsF (lsize is) is s none

/-- A whole pattern: ordered alternative sequences (top-level `|`). -/
abbrev RPattern := List (List RItem)

/-- Match a pattern at the start of `s` (used for `^`-anchored patterns,
    which Python `findall` can only match at position 0). -/
def matchPatternAt (p : RPattern) (s : Str) : Option (Str × Str) :=
  p.findSome? fun seq => matchItems seq s

/-- Leftmost match: scan positions left to right (Python `re.search` order,
    which is also the order `findall` discovers matches in). -/
def searchPattern (p : RPattern) : Str → Option (Str × Str)
  | [] => matchPatternAt p []
  | c :: cs =>
    match matchPatternAt p (c :: cs) with
    | some r => some r
    | none => searchPattern p cs

/-- First captured group of the leftmost match (`re.findall(...)[0]` for the
    patterns at hand, all of which match at least one character). -/
def findFirst (p : RPattern) (s : Str) : Option Str :=
  (searchPattern p s).map (·.1)

/-- All captures of non-overlapping matches, scanning left to right
    (`re.findall`). The fuel argument bounds the recursion; every source
    pattern consumes at least one character per match, so `s.length + 1`
    steps suffice. -/
def findAllAux (p : RPattern) : Nat → Str → List Str
  | 0, _ => []
  | fuel + 1, s =>
    match searchPattern p s with
    | none => []
    | some (cap, rest) =>
      cap :: (if rest.length < s.length then findAllAux p fuel rest else [])

/-- Python `re.findall` (list of captured groups). -/
def findAll (p : RPattern) (s : Str) : List Str :=
  findAllAux p (s.length + 1) s

/-! Pattern-building shorthand. -/

/-- Literal item. -/
def L (s : String) : RItem := .lit s.toList

/-- Ordered literal alternation. -/
def A (ss : List String) : RItem := .alts (ss.map String.toList)

/-- `\s*` -/
def sp0 : RItem := .rep isPySpace 0 none

/-- `\s+` -/
def sp1 : RItem := .rep isPySpace 1 none

/-- `(\w+)` -/
def wgrp : RItem := .grp isWord 1 none

/-! ### Data model (§3): comparison input -/

/-- One entry of `comparison['files']`: the `.get(...)` defaults of the
    source (`''` for strings, `0` for counts) are the empty string / zero
    here. -/
structure FileData where
  filename : Str
  status : Str
  additions : Nat
  deletions : Nat
  patch : Str
deriving DecidableEq

/-- A comparison record. `files`/`commits` are `Option` because the source
    guards `'files' not in comparison` / `'commits' not in comparison`;
    an entirely absent or falsy comparison is `none` at the call sites. -/
structure Comparison where
  files : Option (List FileData)
  commits : Option (List Str)
deriving DecidableEq

/-- The nine change categories of `analyze_file_changes`. -/
inductive Cat where
  | infrastructure | configuration | testing | documentation
  | security | database | api | frontend | dependencies
deriving DecidableEq

/-- Category declaration order of the source. -/
def allCats : List Cat :=
  [.infrastructure, .configuration, .testing, .documentation,
   .security, .database, .api, .frontend, .dependencies]

/-- The path-substring keyword table of `analyze_file_changes`. -/
def catKeywords : Cat → List Str
  | .infrastructure =>
    ["docker", "dockerfile", ".yml", ".yaml", "ci", "cd", "deploy"].map String.toList
  | .configuration =>
    ["config", "settings", ".env", ".ini", ".conf"].map String.toList
  | .testing =>
    ["test", "spec", "__test__", ".test.", ".spec."].map String.toList
  | .documentation =>
    ["readme", "docs/", "documentation", ".md", "license"].map String.toList
  | .security =>
    ["auth", "security", "crypto", "password", "token", "secret"].map String.toList
  | .database =>
    ["migration", "schema", "model", "database", "db/", "sql"].map String.toList
  | .api =>
    ["api/", "endpoint", "route", "controller", "handler"].map String.toList
  | .frontend =>
    [".css", ".scss", ".html", ".jsx", ".tsx", ".vue", "component", "ui/"].map String.toList
  | .dependencies =>
    ["package.json", "requirements.txt", "go.mod", "pom.xml", "build.gradle",
     "gemfile", "cargo.toml"].map String.toList

/-- Entry of `major_changes`. -/
structure MajorChange where
  file : Str
  status : Str
  additions : Nat
  deletions : Nat
deriving DecidableEq

/-- Output of `analyze_file_changes`. The Python `change_categories` set is
    represented canonically as the sublist of `allCats` whose members some
    file matches (same membership and cardinality as the set; the scorer
    consumes it only through membership and `len`). The fields
    `files_by_type`, `key_areas` and `technical_changes` are not consumed by
    any claim and are omitted. -/
structure FileAnalysis where
  total_files_changed : Nat
  change_categories : List Cat
  specific_files_modified : List Str
  new_files_added : List Str
  files_removed : List Str
  major_changes : List MajorChange
deriving DecidableEq

/-- All-zero `FileAnalysis` (the dict initializer of the source). -/
def emptyFileAnalysis : FileAnalysis := ⟨0, [], [], [], [], []⟩

/-- Does a file put category `c` into `change_categories`? -/
def fileHasCat (c : Cat) (fd : FileData) : Bool :=
  (catKeywords c).any (fun k => isSubstr k (lower fd.filename))

/-- `analyze_file_changes` (source lines 304-397, decision-relevant fields). -/
def analyze_file_changes (comparison : Option Comparison) : FileAnalysis :=
  match comparison with
  | none => emptyFileAnalysis
  | some comp =>
    match comp.files with
    | none => emptyFileAnalysis
    | some files =>
      { total_files_changed := files.length
        change_categories := allCats.filter (fun c => files.any (fileHasCat c))
        specific_files_modified := files.map (·.filename)
        new_files_added :=
          (files.filter (fun f => f.status = "added".toList)).map (·.filename)
        files_removed :=
          (files.filter (fun f => f.status = "removed".toList)).map (·.filename)
        major_changes :=
          (files.filter (fun f => f.additions + f.deletions > 50)).map
            (fun f => ⟨f.filename, f.status, f.additions, f.deletions⟩) }

/-! ### Structural signal extractor (`analyze_patch_content`, lines 654-811) -/

/-- Entry of `new_functions_detected`. -/
structure FuncEntry where
  file : Str
  func : Str
  language : String
deriving DecidableEq

/-- Entry of `new_classes_detected`. -/
structure ClassEntry where
  file : Str
  cls : Str
  language : String
deriving DecidableEq

/-- Entry of `enhanced_functions`. -/
structure EnhEntry where
  file : Str
  additions : Nat
deriving DecidableEq

/-- Entry of `environment_adjustments`. -/
structure EnvEntry where
  file : Str
  kind : String
  additions : Nat
deriving DecidableEq

/-- Output of `analyze_patch_content` (`SignalSet` of the spec). -/
structure PatchAnalysis where
  new_functions_detected : List FuncEntry
  new_classes_detected : List ClassEntry
  enhanced_functions : List EnhEntry
  environment_adjustments : List EnvEntry
  config_only_changes : List Str
  code_additions_count : Nat
  config_additions_count : Nat
  meaningfulness_signals : List Str
  has_meaningful_code_changes : Bool
deriving DecidableEq

/-- The dict initializer of `analyze_patch_content`. -/
def emptyPatchAnalysis : PatchAnalysis := ⟨[], [], [], [], [], 0, 0, [], false⟩

/-- `config_extensions` of the source. -/
def configExtensions : List Str :=
  [".yml", ".yaml", ".json", ".toml", ".ini", ".conf", ".env", ".properties",
   ".cfg", ".config", ".xml"].map String.toList

/-- `code_extensions` of the source. -/
def codeExtensions : List Str :=
  [".py", ".js", ".ts", ".java", ".go", ".rb", ".php", ".cpp", ".c", ".h",
   ".cs", ".swift", ".kt", ".rs", ".jsx", ".tsx", ".vue", ".scala", ".sh",
   ".bash"].map String.toList

/-- Path keywords making a file configuration-like. -/
def configNameKeywords : List Str := ["config", ".env", "settings"].map String.toList

/-- Path keywords making a file environment/deployment-related. -/
def dockerEnvKeywords : List Str :=
  ["docker", "kubernetes", "k8s", ".yml", ".yaml"].map String.toList

/-- `logic_indicators` of the source. -/
def logicIndicators : List Str :=
  ["if ", "for ", "while ", "return ", "await ", "async ", "try:", "except:",
   "catch ", "throw ", "&&", "||", "map(", "filter(", "reduce(",
   "forEach("].map String.toList

/-- `function_patterns` in dict order. The outer `^\+\s*(?:A|B|C)`
    alternations of the javascript/typescript patterns are flattened into
    top-level alternative sequences, each repeating the `\+\s*` prefix: the
    alternatives begin with non-space atoms, so only the maximal `\s*`
    width can start any of them and the flattening preserves Python's
    backtracking order. Optional literal groups `(?:x|y)?` carry `""` as
    last alternative; optional non-literal groups use `.opt`. -/
def functionPatterns : List (String × RPattern) :=
  [ ("python", [[L "+", sp0, L "def", sp1, wgrp, sp0, L "("]]),
    ("javascript",
      [[L "+", sp0, L "function", sp1, wgrp],
       [L "+", sp0, A ["const", "let", "var"], sp1, wgrp, sp0, L "=", sp0,
        .opt (.seq (L "async") sp0), L "("],
       [L "+", sp0, wgrp, sp0, L ":", sp0, .opt (.seq (L "async") sp0), L "("]]),
    ("java",
      [[L "+", sp0, A ["public", "private", "protected", ""], sp0,
        .opt (.seq (L "static") sp1), .rep (fun c => isWord c || c = '<' || c = '>') 1 none,
        sp1, wgrp, sp0, L "("]]),
    ("go", [[L "+", sp0, L "func", sp1, wgrp, sp0, L "("]]),
    ("typescript",
      [[L "+", sp0, L "function", sp1, wgrp],
       [L "+", sp0, A ["const", "let"], sp1, wgrp, sp0, L "=", sp0,
        .opt (.seq (L "async") sp0), L "("],
       [L "+", sp0, wgrp, sp0, L ":", sp0, .opt (.seq (L "async") sp0), L "("]]),
    ("c/cpp",
      [[L "+", sp0, .rep (fun c => isWord c || c = '*') 1 none, sp1, wgrp, sp0,
        L "(", .rep (fun c => c ≠ ')') 0 none, L ")", sp0, L "\x7b"]]) ]

/-- `class_patterns` in dict order. -/
def classPatterns : List (String × RPattern) :=
  [ ("python", [[L "+", sp0, L "class", sp1, wgrp]]),
    ("javascript", [[L "+", sp0, L "class", sp1, wgrp]]),
    ("java",
      [[L "+", sp0, A ["public", "private", "protected", ""], sp0,
        .opt (.seq (L "abstract") sp1), L "class", sp1, wgrp]]),
    ("typescript", [[L "+", sp0, .opt (.seq (L "export") sp1), L "class", sp1, wgrp]]),
    ("cpp", [[L "+", sp0, L "class", sp1, wgrp]]) ]

/-- Function entries one raw patch line contributes: one entry per matching
    language template (the source has no break across templates; per
    template it uses `matches[0]`, and the `^`-anchor makes `findall` yield
    at most one match per line). -/
def lineFuncEntries (filename line : Str) : List FuncEntry :=
  functionPatterns.filterMap fun lp =>
    (matchPatternAt lp.2 line).map fun r =>
      { file := filename, func := r.1, language := lp.1 }

/-- Class entries one raw patch line contributes. -/
def lineClassEntries (filename line : Str) : List ClassEntry :=
  classPatterns.filterMap fun lp =>
    (matchPatternAt lp.2 line).map fun r =>
      { file := filename, cls := r.1, language := lp.1 }

/-- Audit strings for detected functions. -/
def funcSignals (es : List FuncEntry) : List Str :=
  es.map fun e => "New function: ".toList ++ e.func ++ " in ".toList ++ e.file

/-- Audit strings for detected classes. -/
def classSignals (es : List ClassEntry) : List Str :=
  es.map fun e => "New class: ".toList ++ e.cls ++ " in ".toList ++ e.file

/-- The per-patch-line step of `analyze_patch_content`: append the
    function and class entries (and their audit strings) this line
    contributes. -/
def lineStep (filename : Str) (a : PatchAnalysis) (line : Str) : PatchAnalysis :=
  let fs := lineFuncEntries filename line
  let cs := lineClassEntries filename line
  { a with
    new_functions_detected := a.new_functions_detected ++ fs
    new_classes_detected := a.new_classes_detected ++ cs
    meaningfulness_signals :=
      a.meaningfulness_signals ++ funcSignals fs ++ classSignals cs }

/-- The body of the per-file loop of `analyze_patch_content`. -/
def processFile (acc : PatchAnalysis) (fd : FileData) : PatchAnalysis :=
  if fd.patch = [] then acc
  else
    let fileExt := lower (suffixOf fd.filename)
    let filenameLower := lower fd.filename
    let isCodeFile := codeExtensions.contains fileExt
    let isConfigFile := configExtensions.contains fileExt ||
      configNameKeywords.any (fun k => isSubstr k filenameLower)
    let isDockerEnv := dockerEnvKeywords.any (fun k => isSubstr k filenameLower)
    let acc :=
      if isCodeFile then
        { acc with code_additions_count := acc.code_additions_count + fd.additions }
      else if isConfigFile then
        { acc with config_additions_count := acc.config_additions_count + fd.additions }
      else acc
    if ¬ isCodeFile ∧ ¬ isDockerEnv then
      if isConfigFile then
        { acc with config_only_changes := acc.config_only_changes ++ [fd.filename] }
      else acc
    else
      let patchLines := splitNl fd.patch
      let addedLines := patchLines.filterMap fun l =>
        if ("+".toList).isPrefixOf l ∧ ¬ ("+++".toList).isPrefixOf l
        then some (stripChars (l.drop 1)) else none
      let acc := patchLines.foldl (lineStep fd.filename) acc
      let acc :=
        if isDockerEnv ∧ fd.additions > 5 ∧
            (addedLines.filter fun l =>
              l.length > 20 ∧ ¬ ("#".toList).isPrefixOf l).length > 3 then
          { acc with
            environment_adjustments := acc.environment_adjustments ++
              [{ file := fd.filename
                 kind :=
                   if isSubstr ("docker".toList) filenameLower ∨
                      isSubstr ("k8s".toList) filenameLower
                   then "docker/kubernetes" else "deployment"
                 additions := fd.additions }]
            meaningfulness_signals := acc.meaningfulness_signals ++
              ["Environment adjustment in ".toList ++ fd.filename] }
        else acc
      if isCodeFile ∧ fd.status = "modified".toList ∧ fd.additions > 10 ∧
          addedLines.any (fun l => logicIndicators.any (fun ind => isSubstr ind l)) then
        { acc with
          enhanced_functions := acc.enhanced_functions ++
            [{ file := fd.filename, additions := fd.additions }]
          meaningfulness_signals := acc.meaningfulness_signals ++
            ["Enhanced logic in ".toList ++ fd.filename] }
      else acc

/-- The whole per-file loop of `analyze_patch_content`. -/
def patchFold (files : List FileData) : PatchAnalysis :=
  files.foldl processFile emptyPatchAnalysis

/-- `analyze_patch_content` (source lines 654-811). -/
def analyze_patch_content (comparison : Option Comparison) : PatchAnalysis :=
  match comparison with
  | none => emptyPatchAnalysis
  | some comp =>
    match comp.files with
    | none => emptyPatchAnalysis
    | some files =>
      let a := patchFold files
      { a with
        has_meaningful_code_changes :=
          decide (a.new_functions_detected ≠ [] ∨ a.new_classes_detected ≠ [] ∨
            a.enhanced_functions ≠ [] ∨ a.environment_adjustments ≠ [] ∨
            a.code_additions_count > 50) }

/-! ### Meaningfulness scorer (`classify_fork_meaningfulness`, lines 892-1003)

The source accumulates `meaningful_score` and `reasons` sequentially; the
definitions below mirror that accumulation with shadowing `let`s, writing
each guarded step `if cond: acc += v` as `acc + (if cond then v else 0)`
(and `if cond: reasons.append(x)` as appending `if cond then [x] else []`),
which has the same value at every step. -/

/-- Terminal verdict (`ClassificationVerdict`). The source dict has no score
    key; the score is exposed separately as `meaningfulScore`. -/
structure Verdict where
  is_meaningful : Bool
  classification : String
  confidence : String
  reasons : List String
  summary : String
deriving DecidableEq

/-- The float comparison `len(config_only_changes)/total_files > 0.8` of the
    source, as an exact rational comparison (`5*len > 4*total`; for the file
    counts at hand the IEEE-double comparison agrees with the rational one).
    Only evaluated under `total_files > 0`. -/
def configRatioHigh (configOnlyLen totalFiles : Nat) : Prop :=
  5 * configOnlyLen > 4 * totalFiles

instance (a b : Nat) : Decidable (configRatioHigh a b) := by
  unfold configRatioHigh; infer_instance

/-- `meaningful_score` after all additions and penalties. -/
def meaningfulScore (pa : PatchAnalysis) (fa : FileAnalysis) : Int :=
  let f := pa.new_functions_detected.length
  let c := pa.new_classes_detected.length
  let e := pa.enhanced_functions.length
  let v := pa.environment_adjustments.length
  let codeAdd := pa.code_additions_count
  let cfgLen := pa.config_only_changes.length
  let t := fa.total_files_changed
  let cats := fa.change_categories
  let s : Int := 0
  let s := s + (if f > 0 then 10 * f else 0)
  let s := s + (if c > 0 then 15 * c else 0)
  let s := s + (if e > 0 then 5 * e else 0)
  let s := s + (if v > 0 then 8 * v else 0)
  let s := s + (if codeAdd > 100 then 20 else if codeAdd > 50 then 10 else 0)
  let s := s - (if t > 0 ∧ configRatioHigh cfgLen t then 15 else 0)
  let s := s - (if t > 0 ∧ Cat.documentation ∈ cats ∧ cats.length = 1 then 10 else 0)
  s

/-- The `reasons` list as accumulated by the scoring steps (before the
    fallback of the Not Meaningful branch). Penalty reasons are only
    recorded when the list is still empty at that point. -/
def meaningfulReasons (pa : PatchAnalysis) (fa : FileAnalysis) : List String :=
  let f := pa.new_functions_detected.length
  let c := pa.new_classes_detected.length
  let e := pa.enhanced_functions.length
  let v := pa.environment_adjustments.length
  let codeAdd := pa.code_additions_count
  let cfgLen := pa.config_only_changes.length
  let t := fa.total_files_changed
  let cats := fa.change_categories
  let r : List String := []
  let r := r ++ (if f > 0 then [toString f ++ " new function(s) added"] else [])
  let r := r ++ (if c > 0 then [toString c ++ " new class(es) added"] else [])
  let r := r ++
    (if e > 0 then [toString e ++ " function(s) enhanced with new logic"] else [])
  let r := r ++
    (if v > 0 then [toString v ++ " environment adjustment(s) for deployment"] else [])
  let r := r ++
    (if codeAdd > 100 then [toString codeAdd ++ " lines of code added"]
     else if codeAdd > 50 then [toString codeAdd ++ " lines of code added"]
     else [])
  let r := if t > 0 ∧ configRatioHigh cfgLen t then
    (if r = [] then [toString cfgLen ++ " configuration file(s) changed"] else r)
    else r
  let r := if t > 0 ∧ Cat.documentation ∈ cats ∧ cats.length = 1 then
    (if r = [] then ["Only documentation changes"] else r)
    else r
  r

/-- Summary sentence of the meaningful branch. -/
def meaningfulSummary (pa : PatchAnalysis) : String :=
  if pa.new_functions_detected.length > 0 ∨ pa.new_classes_detected.length > 0 then
    "Fork adds new functionality to the codebase"
  else if pa.environment_adjustments.length > 0 then
    "Fork adapts the project for different environments"
  else if pa.enhanced_functions.length > 0 then
    "Fork enhances existing functionality"
  else
    "Fork includes substantial code modifications"

/-- Summary sentence of the not-meaningful branch
    (`config_ratio > 0.8 if total_files > 0 else False`, then
    `'documentation' in categories and len(categories) <= 2`). -/
def notMeaningfulSummary (pa : PatchAnalysis) (fa : FileAnalysis) : String :=
  if fa.total_files_changed > 0 ∧
      configRatioHigh pa.config_only_changes.length fa.total_files_changed then
    "Fork primarily contains configuration updates"
  else if Cat.documentation ∈ fa.change_categories ∧
      fa.change_categories.length ≤ 2 then
    "Fork primarily contains documentation changes"
  else
    "Fork contains minor or non-functional changes"

/-- `classify_fork_meaningfulness` (source lines 892-1003). -/
def classify_fork_meaningfulness (pa : PatchAnalysis) (fa : FileAnalysis) : Verdict :=
  let score := meaningfulScore pa fa
  let rs := meaningfulReasons pa fa
  if score ≥ 20 then
    { is_meaningful := true, classification := "Meaningful", confidence := "high",
      reasons := rs, summary := meaningfulSummary pa }
  else if score ≥ 10 then
    { is_meaningful := true, classification := "Meaningful", confidence := "medium",
      reasons := rs, summary := meaningfulSummary pa }
  else if score ≥ 5 then
    { is_meaningful := true, classification := "Likely Meaningful", confidence := "low",
      reasons := rs, summary := meaningfulSummary pa }
  else
    { is_meaningful := false, classification := "Not Meaningful",
      confidence := if score < -5 then "medium" else "low",
      reasons := if rs = [] then ["No significant code changes detected"] else rs,
      summary := notMeaningfulSummary pa fa }

/-! ### README delta extractor (`analyze_readme_deeply`, lines 399-543)

Modelled fields: `stated_purpose`, `use_cases`, `target_audience`,
`industry_terms`, `problems_solved`, `integrations_mentioned` and the
synthesized `business_context` - all the fields consumed by the claims, by
the business-context priority chain, or by the executive-summary composer.
The fields `deployment_targets` and `added_sections` are independent
outputs read by none of those consumers and are omitted. -/

/-- `([^.!?\n]{10,100})` -/
def pgrp : RItem := .grp (fun c => !(c = '.' || c = '!' || c = '?' || c = '\n')) 10 (some 100)

/-- `([^#\n]{20,200})` -/
def hgrp : RItem := .grp (fun c => !(c = '#' || c = '\n')) 20 (some 200)

/-- `purpose_patterns` of the source, in order. -/
def purposePatterns : List RPattern :=
  [ [[A ["this fork", "this version", "this project", "we"], sp1,
      A ["is", "are"], sp1, A ["designed", "built", "created", "intended"], sp1,
      A ["for", "to"], sp1, pgrp]],
    [[A ["purpose", "goal", "aim"], L ":", sp0, pgrp]],
    [[A ["why we forked", "reason for fork"], L ":", sp0, pgrp]],
    [[A ["optimized", "tailored", "customized"], sp1, L "for", sp1, pgrp]] ]

/-- `use_case_patterns` of the source (`[s]?` is a 0-1 repetition). -/
def useCasePatterns : List RPattern :=
  [ [[L "use case", .rep (fun c => c = 's') 0 (some 1), L ":", sp0, hgrp]],
    [[A ["ideal", "perfect", "best"], sp1, L "for", sp1, pgrp]],
    [[A ["useful", "helpful"], sp1, A ["for", "when", "if"], sp1, pgrp]],
    [[L "example", .rep (fun c => c = 's') 0 (some 1), L ":", sp0, hgrp]] ]

/-- `audience_patterns` of the source, in order. The first pattern's group
    is a captured literal alternation, written as a `gopen`/`gclose` pair
    around the alternation; the second pattern has no group at all, so
    Python `findall` returns its full matches - modelled by wrapping the
    whole pattern in a `gopen`/`gclose` pair. -/
def audiencePatterns : List RPattern :=
  [ [[A ["for", "targeting", "aimed at"], sp1, .gopen,
      A ["enterprises", "companies", "organizations", "teams", "developers",
         "researchers", "data scientists", "ml engineers", "healthcare",
         "financial", "government"], .gclose]],
    [[.gopen, A ["enterprise", "production", "industrial"], sp1,
      A ["use", "deployment", "environment"], .gclose]] ]

/-- `problem_patterns` of the source. `solves?` etc. expand to ordered
    literal alternatives with the greedy optional `s` first; the optional
    group `(?:the\s+)?` is a greedy `.opt`. -/
def problemPatterns : List RPattern :=
  [ [[A ["solves", "solve", "addresses", "addresse", "fixes", "fixe",
         "handles", "handle"], sp1, .opt (.seq (L "the") sp1),
      A ["problem", "issue", "challenge"], sp1, L "of", sp1, pgrp]],
    [[A ["enables", "enable", "allows", "allow", "supports", "support"], sp1, pgrp]],
    [[A ["without", "no longer need"], sp1, pgrp]] ]

/-- `(\w+(?:\s+\w+)?)`: the captured one-or-two-word phrase of the
    integration patterns. -/
def wordPhrase : List RItem :=
  [.gopen, .rep isWord 1 none, .opt (.seq sp1 (.rep isWord 1 none)), .gclose]

/-- `integration_patterns` of the source, in order (`integrat(?:e|es|ion)`
    and `connect(?:s|ion)?` expand to ordered literal alternatives in
    Python's backtracking order; `(?:with\s+)?` / `(?:to\s+)?` are greedy
    `.opt` groups). -/
def integrationPatterns : List RPattern :=
  [ [[A ["integrate", "integrates", "integration"], sp1,
      .opt (.seq (L "with") sp1)] ++ wordPhrase],
    [[A ["connects", "connection", "connect"], sp1,
      .opt (.seq (L "to") sp1)] ++ wordPhrase],
    [[A ["supports", "support"], sp1] ++ wordPhrase ++
      [sp1, A ["integration", "api", "platform"]]] ]

/-- The integration stop-word set of the source. -/
def integrationStopWords : List Str :=
  ["the", "with", "for", "and", "our", "your", "this", "that",
   "other"].map String.toList

/-- `industry_keywords` of the source, in dict order. -/
def industryKeywords : List (Str × List Str) :=
  [ ("healthcare".toList,
     ["patient", "clinical", "medical", "hipaa", "healthcare", "hospital",
      "diagnosis", "treatment"].map String.toList),
    ("finance".toList,
     ["trading", "financial", "banking", "payment", "transaction", "fraud",
      "risk", "compliance", "kyc", "aml"].map String.toList),
    ("enterprise".toList,
     ["enterprise", "corporate", "b2b", "saas", "multi-tenant", "sso", "ldap",
      "active directory"].map String.toList),
    ("ml/ai".toList,
     ["machine learning", "deep learning", "neural network", "training",
      "inference", "model serving"].map String.toList),
    ("cloud".toList,
     ["aws", "azure", "gcp", "kubernetes", "docker", "containerized",
      "microservices"].map String.toList),
    ("government".toList,
     ["government", "public sector", "federal", "compliance", "air-gapped",
      "classified"].map String.toList),
    ("education".toList,
     ["education", "learning", "student", "academic", "research",
      "university"].map String.toList),
    ("iot".toList,
     ["iot", "sensor", "edge", "embedded", "device", "hardware"].map String.toList) ]

/-- Modelled `ReadmeDelta` output (fields in source dict order). -/
structure ReadmeDelta where
  stated_purpose : Option Str
  use_cases : List Str
  target_audience : Option Str
  industry_terms : List Str
  problems_solved : List Str
  integrations_mentioned : List Str
  business_context : Option Str
deriving DecidableEq

/-- The all-empty result (dict initializer of the source). -/
def emptyReadmeDelta : ReadmeDelta := ⟨none, [], none, [], [], [], none⟩

/-- Python truthiness of an optional string. -/
def truthyOpt : Option Str → Bool
  | none => false
  | some s => s ≠ []

/-- The "what's in fork but not in original" computation: fork lines that
    are no exact case-insensitive match of any original line and whose
    stripped length exceeds 10, joined by newlines; everything when the
    original is absent or empty (falsy). -/
def readmeNewContent (originalReadme : Option Str) (forkReadme : Str) : Str :=
  match originalReadme with
  | some orig =>
    if orig ≠ [] then
      let originalLines := splitNl (lower orig)
      joinNl ((splitNl forkReadme).filter fun l =>
        ¬ originalLines.contains (stripChars (lower l)) ∧ (stripChars l).length > 10)
    else forkReadme
  | none => forkReadme

/-- `analyze_readme_deeply` (source lines 399-543, modelled fields). -/
def analyze_readme_deeply (originalReadme forkReadme : Option Str) : ReadmeDelta :=
  match forkReadme with
  | none => emptyReadmeDelta
  | some fork =>
    if fork = [] then emptyReadmeDelta
    else
      let newContent := readmeNewContent originalReadme fork
      if newContent.length < 50 then emptyReadmeDelta
      else
        let ncl := lower newContent
        let sp := purposePatterns.findSome? fun p => (findFirst p ncl).map stripChars
        let ucs := (useCasePatterns.map fun p =>
          ((findAll p ncl).take 3).map stripChars).flatten
        let aud := audiencePatterns.findSome? fun p => findFirst p ncl
        let inds := ((industryKeywords.filter fun ik =>
          ik.2.any fun k => isSubstr k ncl).map (·.1)).take 3
        let probs := (problemPatterns.map fun p =>
          ((findAll p ncl).take 2).map stripChars).flatten
        let ints := (integrationPatterns.map fun p =>
          ((findAll p ncl).map stripChars).filter (fun m => m.length > 3)).flatten
        let intsKept := (ints.take 5).filter fun i => ¬ integrationStopWords.contains i
        let bc :=
          if truthyOpt sp then some ("Explicitly states: ".toList ++ sp.getD [])
          else if ucs ≠ [] then some ("Use case: ".toList ++ ucs.headD [])
          else if inds ≠ [] then
            some ("Targeted for ".toList ++ joinCommaSpace (inds.take 2) ++
              " applications".toList)
          else if probs ≠ [] then some ("Addresses: ".toList ++ probs.headD [])
          else none
        { stated_purpose := sp, use_cases := ucs, target_audience := aud,
          industry_terms := inds, problems_solved := probs,
          integrations_mentioned := intsKept, business_context := bc }

/-! ### Executive summary composer (`generate_executive_summary`,
lines 1005-1100, with its helpers `_extract_specific_changes`,
lines 1102-1137, and `_infer_business_context`, lines 1163-1201)

The composer combines the verdict and the derived analyses with three
records produced by out-of-scope collaborators (the CSV fork metadata, the
commit-intent profile of `analyze_commit_content`, and the network-reading
`analyze_documentation_files`); those are modelled as input structures with
the fields the composer reads. The `readme_changed` parameter of the source
is never read in the function body and is omitted; the source's local
`classification` variable (read from the verdict, never used) likewise. -/

/-- The fork metadata fields of the CSV row that the composer and
    `_infer_business_context` read (`.get` defaults: `'User'` for the owner
    type, `''` for the rest). -/
structure ForkData where
  fork_owner : Str
  original_repo : Str
  fork_owner_type : Str
  description_changed : Str
  fork_description : Str
deriving DecidableEq

/-- The fields of `analyze_commit_content`'s output that the composer and
    its helpers read (`commit_sample` is carried for completeness). -/
structure CommitAnalysis where
  development_focus : List Str
  key_features_mentioned : List Str
  commit_sample : List Str
deriving DecidableEq

/-- One entry of `documentation_insights` (`kind` models the source key
    `type`, `none` until set). -/
structure DocInsight where
  file : Str
  kind : Option Str
  key_points : List Str
deriving DecidableEq

/-- The fields of `analyze_documentation_files`'s output that the composer
    reads; its other fields (deployment/architecture/integration details,
    setup requirements) are read by no claim consumer and are omitted. -/
structure DocAnalysis where
  documentation_insights : List DocInsight
  stated_goals : List Str
deriving DecidableEq

/-- The Python name string of a change category. -/
def catName : Cat → Str
  | .infrastructure => "infrastructure".toList
  | .configuration => "configuration".toList
  | .testing => "testing".toList
  | .documentation => "documentation".toList
  | .security => "security".toList
  | .database => "database".toList
  | .api => "api".toList
  | .frontend => "frontend".toList
  | .dependencies => "dependencies".toList

/-- The nine categories in alphabetical order of their Python names. -/
def allCatsAlphabetical : List Cat :=
  [.api, .configuration, .database, .dependencies, .documentation,
   .frontend, .infrastructure, .security, .testing]

/-- Python `sorted(categories)` over the set's member names (the canonical
    list representation makes this the alphabetical sublist of members). -/
def sortedCatNames (cats : List Cat) : List Str :=
  (allCatsAlphabetical.filter (· ∈ cats)).map catName

/-- Python `str(...)` of a list of strings, as `_infer_business_context`
    applies it to `specific_files_modified`: `[` + `', '`-separated
    single-quoted elements + `]` (Python repr would switch to double quotes
    for elements containing a single quote; filenames at hand contain
    none, and the only use is a `'docker' in ...` substring test that the
    quoting cannot affect). -/
def pyStrListRepr (ls : List Str) : Str :=
  "[".toList ++ joinCommaSpace (ls.map fun f => "\x27".toList ++ f ++ "\x27".toList)
    ++ "]".toList

/-- `_extract_specific_changes` (source lines 1102-1137). -/
def extract_specific_changes (fa : FileAnalysis) (ca : CommitAnalysis) : Str :=
  let details : List Str := []
  let details := details ++
    (let notableNew := (fa.new_files_added.take 3).filter fun f =>
       ¬ (".".toList).isPrefixOf f
     if fa.new_files_added ≠ [] ∧ notableNew ≠ [] then
       ["new files including ".toList ++ joinCommaSpace ((notableNew.take 2).map pathName)]
     else [])
  let details := details ++
    (if ca.key_features_mentioned ≠ [] then
       ["work on ".toList ++ joinCommaSpace (ca.key_features_mentioned.take 2)]
     else [])
  let details := details ++
    (match fa.major_changes with
     | [] => []
     | mc :: _ => ["significant modifications to ".toList ++ pathName mc.file])
  if details ≠ [] then
    "The fork includes ".toList ++ joinWith " and ".toList (details.take 3)
      ++ ".".toList
  else
    let cats := sortedCatNames fa.change_categories
    if cats ≠ [] then
      "Modifications span ".toList ++ joinCommaSpace (cats.take 3)
        ++ " components.".toList
    else []

/-- `_infer_business_context` (source lines 1163-1201). -/
def infer_business_context (fd : ForkData) (fa : FileAnalysis)
    (ca : CommitAnalysis) : Str :=
  let cats := fa.change_categories
  let descChanged := lower fd.description_changed = "true".toList
  let forkDesc := stripChars fd.fork_description
  if descChanged ∧ forkDesc ≠ [] ∧ forkDesc.length > 10 then
    "The project has been repositioned as: \"".toList ++ forkDesc ++ "\".".toList
  else if Cat.infrastructure ∈ cats ∨ Cat.dependencies ∈ cats then
    (if isSubstr "docker".toList (lower (pyStrListRepr fa.specific_files_modified)) then
      ("This appears to be an effort to containerize and deploy the software"
        ++ " in their environment.").toList
     else
      ("The work focuses on adapting deployment and infrastructure for their"
        ++ " operational needs.").toList)
  else if Cat.testing ∈ cats ∧ fa.new_files_added.length > 2 then
    ("Development includes building out testing infrastructure for quality"
      ++ " assurance.").toList
  else if Cat.security ∈ cats then
    ("Changes emphasize security enhancements, likely for enterprise or"
      ++ " compliance requirements.").toList
  else if Cat.api ∈ cats ∧ Cat.database ∈ cats then
    ("Development extends backend functionality with API and data model"
      ++ " enhancements.").toList
  else if Cat.frontend ∈ cats then
    ("Work concentrates on user interface improvements and frontend"
      ++ " customization.").toList
  else if ca.development_focus.contains "integration".toList then
    ("The modifications enable integration with their existing technology"
      ++ " stack.").toList
  else []

/-- `generate_executive_summary` (source lines 1005-1100). -/
def generate_executive_summary (fd : ForkData) (fa : FileAnalysis)
    (ca : CommitAnalysis) (ra : ReadmeDelta) (da : DocAnalysis)
    (mf : Option Verdict) : Str :=
  let filesChanged := fa.total_files_changed
  let p1 :=
    if fd.fork_owner_type = "Organization".toList then
      "Organization \x27".toList ++ fd.fork_owner
        ++ "\x27 has developed a customized version of ".toList ++ fd.original_repo
        ++ " with ".toList ++ (toString filesChanged).toList ++ " files modified.".toList
    else
      "Developer \x27".toList ++ fd.fork_owner ++ "\x27 has created a fork of ".toList
        ++ fd.original_repo ++ " with ".toList ++ (toString filesChanged).toList
        ++ " file modifications.".toList
  let parts := [p1]
  let parts := parts ++
    (match mf with
     | none => []
     | some m =>
       if m.is_meaningful then
         if m.reasons ≠ [] then
           ["MEANINGFUL CHANGES: ".toList
             ++ joinWith "; ".toList ((m.reasons.take 2).map String.toList)
             ++ ".".toList]
         else []
       else
         if m.reasons ≠ [] then
           ["NOT MEANINGFUL: ".toList ++ (m.reasons.headD "").toList ++ ".".toList]
         else [])
  let parts := parts ++
    (if truthyOpt ra.stated_purpose then
       ["The fork explicitly states it is ".toList ++ ra.stated_purpose.getD []
         ++ ".".toList]
     else if da.stated_goals ≠ [] then
       ["Documentation indicates the goal is to ".toList ++ da.stated_goals.headD []
         ++ ".".toList]
     else if truthyOpt ra.business_context then [ra.business_context.getD []]
     else if ra.use_cases ≠ [] then
       ["The fork is ".toList ++ ra.use_cases.headD [] ++ ".".toList]
     else [])
  let parts := parts ++
    (if ra.industry_terms ≠ [] then
       let industries := joinWith " and ".toList (ra.industry_terms.take 2)
       if truthyOpt ra.target_audience then
         ["This appears to be targeted at ".toList ++ ra.target_audience.getD []
           ++ " in the ".toList ++ industries ++ " space.".toList]
       else
         ["The fork is focused on ".toList ++ industries ++ " applications.".toList]
     else [])
  let parts := parts ++
    (if da.documentation_insights ≠ [] then
       match da.documentation_insights.filter
           (fun d => d.kind = some ("deployment".toList)) with
       | [] => []
       | d :: _ =>
         if d.key_points ≠ [] then
           ["Deployment documentation covers ".toList
             ++ joinCommaSpace (d.key_points.take 3) ++ ".".toList]
         else []
     else [])
  let parts := parts ++
    (if ra.integrations_mentioned ≠ [] then
       ["Integrations mentioned include ".toList
         ++ joinCommaSpace (ra.integrations_mentioned.take 3) ++ ".".toList]
     else [])
  let parts := parts ++
    (if ra.problems_solved ≠ [] ∧ ¬ truthyOpt ra.stated_purpose then
       ["The changes address ".toList ++ ra.problems_solved.headD [] ++ ".".toList]
     else [])
  let parts :=
    if parts.length = 1 then
      let sd := extract_specific_changes fa ca
      let parts := if sd ≠ [] then parts ++ [sd] else parts
      let bc := infer_business_context fd fa ca
      if bc ≠ [] then parts ++ [bc] else parts
    else parts
  let summary := joinWith " ".toList (parts.take 5)
  if summary.length > 50 then summary
  else ("Fork analysis incomplete - insufficient documentation to determine"
    ++ " business purpose.").toList

/-! ### Batch loop of `process_csv` (lines 1415-1424)

Each record is analyzed inside `try`; any exception is caught at the loop
boundary, the record is skipped (`continue`) and processing goes on. The
per-record analysis (`analyze_fork`, which performs network calls) is
abstracted as a fallible function into `Except`. -/

/-- The `for ... try ... except ... continue` accumulation of `process_csv`. -/
def processRecords (analyze : α → Except ε β) (records : List α) : List β :=
  records.foldl
    (fun acc r =>
      match analyze r with
      | .ok insights => acc ++ [insights]
      | .error _ => acc)
    []

/-- Did the per-record analysis succeed? -/
def exceptOk : Except ε β → Bool
  | .ok _ => true
  | .error _ => false

/-- The scoring and summary stages of the pipeline on one comparison and
    one README pair, wired as in `analyze_fork` (source lines 1344-1387):
    the two comparison-derived analyses feed the classifier, the README
    pair feeds the delta extractor, and the executive-summary composer
    combines the verdict with the fork metadata, the commit-intent profile
    and the documentation analysis (the latter three produced by
    out-of-scope collaborators and taken as inputs). Returns the
    `ClassificationVerdict` and the executive summary string. -/
def runPipeline (comparison : Option Comparison)
    (originalReadme forkReadme : Option Str) (fd : ForkData)
    (ca : CommitAnalysis) (da : DocAnalysis) : Verdict × Str :=
  let pa := analyze_patch_content comparison
  let fa := analyze_file_changes comparison
  let mf := classify_fork_meaningfulness pa fa
  let ra := analyze_readme_deeply originalReadme forkReadme
  (mf, generate_executive_summary fd fa ca ra da (some mf))

/-! ### Claim-side definitions

These definitions follow the wording of the spec claims (not the source) and
exist to be compared against the source-derived definitions above. -/

/-- The classification bands as the claims word them, evaluated top-down:
    `(is_meaningful, classification, confidence)`. -/
def claimBand (score : Int) : Bool × String × String :=
  if score ≥ 20 then (true, "Meaningful", "high")
  else if score ≥ 10 then (true, "Meaningful", "medium")
  else if score ≥ 5 then (true, "Likely Meaningful", "low")
  else (false, "Not Meaningful", if score < -5 then "medium" else "low")

/-- The additive score exactly as claim C1 words it: the documentation-only
    penalty is NOT gated on `total files > 0` there (only the configuration
    penalty is). -/
def claimScoreC1 (pa : PatchAnalysis) (fa : FileAnalysis) : Int :=
  10 * pa.new_functions_detected.length + 15 * pa.new_classes_detected.length
    + 5 * pa.enhanced_functions.length + 8 * pa.environment_adjustments.length
    + (if pa.code_additions_count > 100 then 20
       else if pa.code_additions_count > 50 then 10 else 0)
    - (if fa.total_files_changed > 0 ∧
          configRatioHigh pa.config_only_changes.length fa.total_files_changed
       then 15 else 0)
    - (if Cat.documentation ∈ fa.change_categories ∧ fa.change_categories.length = 1
       then 10 else 0)

/-- The additive score of claim C1 amended minimally: the documentation-only
    penalty, like the configuration penalty, applies only when
    `total files > 0`. -/
def claimScoreC1Amended (pa : PatchAnalysis) (fa : FileAnalysis) : Int :=
  10 * pa.new_functions_detected.length + 15 * pa.new_classes_detected.length
    + 5 * pa.enhanced_functions.length + 8 * pa.environment_adjustments.length
    + (if pa.code_additions_count > 100 then 20
       else if pa.code_additions_count > 50 then 10 else 0)
    - (if fa.total_files_changed > 0 ∧
          configRatioHigh pa.config_only_changes.length fa.total_files_changed
       then 15 else 0)
    - (if fa.total_files_changed > 0 ∧ Cat.documentation ∈ fa.change_categories ∧
          fa.change_categories.length = 1
       then 10 else 0)

/-- The summary ladder exactly as claim C5 words it: in the not-meaningful
    branch the documentation sentence requires documentation to be the ONLY
    change category present. -/
def claimSummaryC5 (pa : PatchAnalysis) (fa : FileAnalysis) : String :=
  if (classify_fork_meaningfulness pa fa).is_meaningful then
    if pa.new_functions_detected.length > 0 ∨ pa.new_classes_detected.length > 0 then
      "Fork adds new functionality to the codebase"
    else if pa.environment_adjustments.length > 0 then
      "Fork adapts the project for different environments"
    else if pa.enhanced_functions.length > 0 then
      "Fork enhances existing functionality"
    else "Fork includes substantial code modifications"
  else
    if fa.total_files_changed > 0 ∧
        configRatioHigh pa.config_only_changes.length fa.total_files_changed then
      "Fork primarily contains configuration updates"
    else if Cat.documentation ∈ fa.change_categories ∧
        fa.change_categories.length = 1 then
      "Fork primarily contains documentation changes"
    else "Fork contains minor or non-functional changes"

/-- The summary ladder of claim C5 amended minimally: the documentation
    sentence fires whenever documentation is among the change categories and
    at most two categories are present. -/
def claimSummaryC5Amended (pa : PatchAnalysis) (fa : FileAnalysis) : String :=
  if (classify_fork_meaningfulness pa fa).is_meaningful then
    if pa.new_functions_detected.length > 0 ∨ pa.new_classes_detected.length > 0 then
      "Fork adds new functionality to the codebase"
    else if pa.environment_adjustments.length > 0 then
      "Fork adapts the project for different environments"
    else if pa.enhanced_functions.length > 0 then
      "Fork enhances existing functionality"
    else "Fork includes substantial code modifications"
  else
    if fa.total_files_changed > 0 ∧
        configRatioHigh pa.config_only_changes.length fa.total_files_changed then
      "Fork primarily contains configuration updates"
    else if Cat.documentation ∈ fa.change_categories ∧
        fa.change_categories.length ≤ 2 then
      "Fork primarily contains documentation changes"
    else "Fork contains minor or non-functional changes"

/-! ### Concrete inputs used by counterexamples and witnesses -/

/-- A `FileAnalysis` with no files but the documentation category recorded
    (the scorer takes the two analyses as independent inputs). -/
def faDocNoFiles : FileAnalysis := ⟨0, [.documentation], [], [], [], []⟩

/-- A `FileAnalysis` with one file and two change categories, documentation
    among them. -/
def faDocTesting : FileAnalysis := ⟨1, [.testing, .documentation], [], [], [], []⟩

/-- Three `.yaml` configuration files with non-empty patches. -/
def yamlComparison : Option Comparison :=
  some ⟨some
    [⟨"deploy.yaml".toList, "modified".toList, 3, 0, "+a: b".toList⟩,
     ⟨"values.yaml".toList, "modified".toList, 2, 0, "+c: d".toList⟩,
     ⟨"ci.yaml".toList, "modified".toList, 1, 0, "+e: f".toList⟩], some []⟩

/-- Three `.ini` configuration files with non-empty patches. -/
def iniComparison : Option Comparison :=
  some ⟨some
    [⟨"app.ini".toList, "modified".toList, 3, 0, "+a=b".toList⟩,
     ⟨"db.ini".toList, "modified".toList, 2, 0, "+c=d".toList⟩,
     ⟨"core.ini".toList, "modified".toList, 1, 0, "+e=f".toList⟩], some []⟩

/-- One code file whose patch adds one function line and one class line. -/
def pyComparison : Option Comparison :=
  some ⟨some
    [⟨"util.py".toList, "added".toList, 2, 0, "+def foo():\n+class Foo:".toList⟩],
    some []⟩

/-- The empty comparison record (`files` and `commits` present but empty). -/
def emptyComparison : Option Comparison := some ⟨some [], some []⟩

/-- Original README of the C6 example. -/
def toolReadmeOriginal : Str := "# Tool\nA generic tool.".toList

/-- Fork README of the C6 example: the original plus one purpose line. -/
def toolReadmeFork : Str :=
  ("# Tool\nA generic tool.\nPurpose: enabling offline retail analytics for grocery chains.").toList

/-- A signal set with one enhanced function and one configuration-only file
    on top of the empty one (counterexample input for C7). -/
def s7larger : PatchAnalysis :=
  { emptyPatchAnalysis with
    enhanced_functions := [⟨"app.py".toList, 20⟩]
    config_only_changes := ["app.ini".toList] }

/-- A signal set with one new function on top of the empty one (witness
    input for C7). -/
def s7func : PatchAnalysis :=
  { emptyPatchAnalysis with
    new_functions_detected := [⟨"app.py".toList, "f".toList, "python"⟩] }

/-- A `FileAnalysis` with one file and no categories. -/
def faOneFile : FileAnalysis := ⟨1, [], [], [], [], []⟩

/-- Concrete fallible per-record analysis for the C9 witness: fails on `0`,
    succeeds elsewhere. -/
def c9analyze (n : Nat) : Except String Nat :=
  if n = 0 then .error "boom" else .ok n

/-- Concrete fork metadata for the C8 witness. -/
def c8ForkData : ForkData :=
  ⟨"acme".toList, "owner/tool".toList, "Organization".toList, [], []⟩

/-- Concrete (empty) commit-intent profile for the C8 witness. -/
def c8CommitAnalysis : CommitAnalysis := ⟨[], [], []⟩

/-- Concrete (empty) documentation analysis for the C8 witness. -/
def c8DocAnalysis : DocAnalysis := ⟨[], []⟩

/-! ### Helper lemmas -/

theorem length_filterMap_eq_countP {α β : Type _} (l : List α) (f : α → Option β) :
    (l.filterMap f).length = l.countP (fun a => (f a).isSome) := by
  induction l with
  | nil => rfl
  | cons x xs ih =>
    cases h : f x <;>
      simp [List.filterMap_cons, h, List.countP_cons, ih]

/-- The sequentially accumulated score equals the additive closed form (the
    amended C1 formula). -/
theorem meaningfulScore_closed (pa : PatchAnalysis) (fa : FileAnalysis) :
    meaningfulScore pa fa = claimScoreC1Amended pa fa := by
  simp only [meaningfulScore, claimScoreC1Amended]
  split_ifs <;> omega

/-- A "record penalty reason only when none yet" step cannot empty a list. -/
theorem guard_nil {γ : Type _} [DecidableEq γ] {c : Prop} [Decidable c]
    {x : List γ} {d : γ}
    (h : (if c then (if x = [] then [d] else x) else x) = []) : x = [] := by
  split_ifs at h <;> simp_all

/-- A conditional singleton append piece that is empty has a false guard. -/
theorem ite_singleton_nil {γ : Type _} {c : Prop} [Decidable c] {s : γ}
    (h : (if c then [s] else ([] : List γ)) = []) : ¬c := by
  split_ifs at h
  all_goals simp_all

/-- Same for the two-tier code-additions piece. -/
theorem ite_ite_singleton_nil {γ : Type _} {c d : Prop} [Decidable c] [Decidable d]
    {s t : γ}
    (h : (if c then [s] else if d then [t] else ([] : List γ)) = []) : ¬c ∧ ¬d := by
  split_ifs at h
  all_goals simp_all

/-- If no reason was accumulated, no positive scoring condition fired. -/
theorem reasons_nil_no_positive (pa : PatchAnalysis) (fa : FileAnalysis)
    (h : meaningfulReasons pa fa = []) :
    ¬ 0 < pa.new_functions_detected.length ∧
    ¬ 0 < pa.new_classes_detected.length ∧
    ¬ 0 < pa.enhanced_functions.length ∧
    ¬ 0 < pa.environment_adjustments.length ∧
    ¬ 100 < pa.code_additions_count ∧ ¬ 50 < pa.code_additions_count := by
  simp only [meaningfulReasons] at h
  have hx := guard_nil (guard_nil h)
  simp only [List.nil_append, List.append_eq_nil] at hx
  obtain ⟨⟨⟨⟨h1, h2⟩, h3⟩, h4⟩, h5⟩ := hx
  obtain ⟨h5a, h5b⟩ := ite_ite_singleton_nil h5
  exact ⟨ite_singleton_nil h1, ite_singleton_nil h2, ite_singleton_nil h3,
    ite_singleton_nil h4, h5a, h5b⟩

/-- If no reason was accumulated, no positive scoring condition fired, so
    the score is at most zero. -/
theorem reasons_nil_score_nonpos (pa : PatchAnalysis) (fa : FileAnalysis)
    (h : meaningfulReasons pa fa = []) : meaningfulScore pa fa ≤ 0 := by
  obtain ⟨h1, h2, h3, h4, h5, h6⟩ := reasons_nil_no_positive pa fa h
  simp only [meaningfulScore]
  split_ifs <;> omega

theorem lineStep_nf (fn : Str) (a : PatchAnalysis) (line : Str) :
    (lineStep fn a line).new_functions_detected
      = a.new_functions_detected ++ lineFuncEntries fn line := rfl

theorem lineStep_nc (fn : Str) (a : PatchAnalysis) (line : Str) :
    (lineStep fn a line).new_classes_detected
      = a.new_classes_detected ++ lineClassEntries fn line := rfl

/-- Function entries contributed by a list of patch lines. -/
def nfLines (fn : Str) (lines : List Str) : List FuncEntry :=
  (lines.foldl (lineStep fn) emptyPatchAnalysis).new_functions_detected

/-- Class entries contributed by a list of patch lines. -/
def ncLines (fn : Str) (lines : List Str) : List ClassEntry :=
  (lines.foldl (lineStep fn) emptyPatchAnalysis).new_classes_detected

theorem foldl_lineStep_nf (fn : Str) :
    ∀ (lines : List Str) (a : PatchAnalysis),
      (lines.foldl (lineStep fn) a).new_functions_detected
        = a.new_functions_detected ++ nfLines fn lines := by
  intro lines
  induction lines with
  | nil => intro a; simp [nfLines, emptyPatchAnalysis]
  | cons l ls ih =>
    intro a
    simp only [nfLines, List.foldl_cons]
    rw [ih, ih, lineStep_nf, lineStep_nf]
    simp [emptyPatchAnalysis, List.append_assoc, nfLines]

theorem foldl_lineStep_nc (fn : Str) :
    ∀ (lines : List Str) (a : PatchAnalysis),
      (lines.foldl (lineStep fn) a).new_classes_detected
        = a.new_classes_detected ++ ncLines fn lines := by
  intro lines
  induction lines with
  | nil => intro a; simp [ncLines, emptyPatchAnalysis]
  | cons l ls ih =>
    intro a
    simp only [ncLines, List.foldl_cons]
    rw [ih, ih, lineStep_nc, lineStep_nc]
    simp [emptyPatchAnalysis, List.append_assoc, ncLines]

theorem processFile_nf (a : PatchAnalysis) (fd : FileData) :
    (processFile a fd).new_functions_detected
      = a.new_functions_detected
        ++ (processFile emptyPatchAnalysis fd).new_functions_detected := by
  simp only [processFile]
  split_ifs <;>
    simp_all [foldl_lineStep_nf, emptyPatchAnalysis, List.append_assoc]

theorem processFile_nc (a : PatchAnalysis) (fd : FileData) :
    (processFile a fd).new_classes_detected
      = a.new_classes_detected
        ++ (processFile emptyPatchAnalysis fd).new_classes_detected := by
  simp only [processFile]
  split_ifs <;>
    simp_all [foldl_lineStep_nc, emptyPatchAnalysis, List.append_assoc]

theorem foldl_processFile_nf :
    ∀ (files : List FileData) (a : PatchAnalysis),
      (files.foldl processFile a).new_functions_detected
        = a.new_functions_detected ++ (patchFold files).new_functions_detected := by
  intro files
  induction files with
  | nil => intro a; simp [patchFold, emptyPatchAnalysis]
  | cons fd fds ih =>
    intro a
    simp only [patchFold, List.foldl_cons]
    rw [ih, ih, processFile_nf]
    simp [List.append_assoc, patchFold]

theorem foldl_processFile_nc :
    ∀ (files : List FileData) (a : PatchAnalysis),
      (files.foldl processFile a).new_classes_detected
        = a.new_classes_detected ++ (patchFold files).new_classes_detected := by
  intro files
  induction files with
  | nil => intro a; simp [patchFold, emptyPatchAnalysis]
  | cons fd fds ih =>
    intro a
    simp only [patchFold, List.foldl_cons]
    rw [ih, ih, processFile_nc]
    simp [List.append_assoc, patchFold]

/-- `processRecords` is a homomorphism for list append. -/
theorem processRecords_append {α ε β : Type _} (analyze : α → Except ε β)
    (l1 l2 : List α) :
    processRecords analyze (l1 ++ l2)
      = processRecords analyze l1 ++ processRecords analyze l2 := by
  have hstep : (fun (acc : List β) r =>
      match analyze r with
      | .ok insights => acc ++ [insights]
      | .error _ => acc)
      = fun acc r => acc ++ (match analyze r with
          | .ok insights => [insights]
          | .error _ => []) := by
    funext acc r
    cases analyze r <;> simp
  have hgo : ∀ (rs : List α) (acc : List β),
      rs.foldl (fun acc r => acc ++ (match analyze r with
        | .ok insights => [insights]
        | .error _ => [])) acc
        = acc ++ rs.foldl (fun acc r => acc ++ (match analyze r with
            | .ok insights => [insights]
            | .error _ => [])) [] := by
    intro rs
    induction rs with
    | nil => intro acc; simp
    | cons r rs ih =>
      intro acc
      simp only [List.foldl_cons]
      rw [ih (acc ++ _), ih ([] ++ _)]
      simp [List.append_assoc]
  simp only [processRecords, hstep, List.foldl_append]
  rw [hgo (l2) (List.foldl _ [] l1)]

/-- The verdict's meaningful flag holds exactly on scores of at least 5. -/
theorem classify_is_meaningful_iff (pa : PatchAnalysis) (fa : FileAnalysis) :
    (classify_fork_meaningfulness pa fa).is_meaningful = true ↔
      5 ≤ meaningfulScore pa fa := by
  simp only [classify_fork_meaningfulness]
  split_ifs <;> simp <;> omega

/-- The verdict's summary is the meaningful ladder on scores of at least 5
    and the not-meaningful ladder otherwise. -/
theorem classify_summary_eq (pa : PatchAnalysis) (fa : FileAnalysis) :
    (classify_fork_meaningfulness pa fa).summary
      = if 5 ≤ meaningfulScore pa fa then meaningfulSummary pa
        else notMeaningfulSummary pa fa := by
  simp only [classify_fork_meaningfulness]
  split_ifs <;> first | rfl | omega

/-! ### Claims -/

/-- C1 counterexample: with no files but the documentation category present,
    the claim's additive score (documentation penalty ungated on
    `total files > 0`) is -10 and predicts confidence "medium", while the
    source's scorer leaves the score at 0 and answers confidence "low". -/
theorem claim_C1_counterexample :
    (classify_fork_meaningfulness emptyPatchAnalysis faDocNoFiles).confidence ≠
      (claimBand (claimScoreC1 emptyPatchAnalysis faDocNoFiles)).2.2 := by
  decide

/-- C1 (amended: the documentation-only penalty, like the configuration
    penalty, applies only when total files > 0): the scorer's accumulated
    score equals the additive formula 10/15/5/8 per signal plus the 20/10
    code-additions bonus minus the 15/10 penalties, and the verdict's
    `is_meaningful`, classification and confidence are exactly the top-down
    bands of that score. -/
theorem claim_C1 :
    ∀ (pa : PatchAnalysis) (fa : FileAnalysis),
      meaningfulScore pa fa = claimScoreC1Amended pa fa ∧
      (classify_fork_meaningfulness pa fa).is_meaningful =
        (claimBand (claimScoreC1Amended pa fa)).1 ∧
      (classify_fork_meaningfulness pa fa).classification =
        (claimBand (claimScoreC1Amended pa fa)).2.1 ∧
      (classify_fork_meaningfulness pa fa).confidence =
        (claimBand (claimScoreC1Amended pa fa)).2.2 := by
  intro pa fa
  refine ⟨meaningfulScore_closed pa fa, ?_, ?_, ?_⟩ <;>
  · rw [← meaningfulScore_closed]
    simp only [classify_fork_meaningfulness, claimBand]
    split_ifs <;> rfl

/-- C2: an empty comparison record (present but empty `files` and `commits`)
    and an entirely absent comparison both give `total_files_changed = 0`,
    an all-empty signal set, and the verdict "Not Meaningful" with
    confidence "low". -/
theorem claim_C2 :
    analyze_file_changes emptyComparison = emptyFileAnalysis ∧
    analyze_patch_content emptyComparison = emptyPatchAnalysis ∧
    (classify_fork_meaningfulness (analyze_patch_content emptyComparison)
      (analyze_file_changes emptyComparison)).classification = "Not Meaningful" ∧
    (classify_fork_meaningfulness (analyze_patch_content emptyComparison)
      (analyze_file_changes emptyComparison)).confidence = "low" ∧
    analyze_file_changes none = emptyFileAnalysis ∧
    analyze_patch_content none = emptyPatchAnalysis ∧
    (classify_fork_meaningfulness (analyze_patch_content none)
      (analyze_file_changes none)).classification = "Not Meaningful" ∧
    (classify_fork_meaningfulness (analyze_patch_content none)
      (analyze_file_changes none)).confidence = "low" := by
  decide

/-- C3 counterexample: for three `.yaml` files with non-empty patches the
    extractor records NO configuration-only changes (every `.yaml` filename
    matches the environment keyword list, so such files are never appended
    to `config_only_changes`), hence no -15 penalty either: the claimed
    length 3 is refuted. -/
theorem claim_C3_counterexample :
    (analyze_patch_content yamlComparison).config_only_changes.length ≠ 3 ∧
    (analyze_patch_content yamlComparison).config_only_changes.length = 0 ∧
    meaningfulScore (analyze_patch_content yamlComparison)
      (analyze_file_changes yamlComparison) = 0 := by
  decide

/-- C3 (amended: environment-related configuration files - `.yaml`/`.yml`
    extensions or docker/kubernetes/k8s paths - are excluded from
    `config_only_changes`; for three non-environment configuration files
    such as `.ini` the claim holds): the `.ini` comparison yields
    `config_only_changes` of length 3, a score of -15 from the
    configuration-ratio penalty, and classification "Not Meaningful"; the
    `.yaml` comparison still classifies "Not Meaningful" but through an
    empty `config_only_changes` and score 0. -/
theorem claim_C3 :
    (analyze_patch_content iniComparison).config_only_changes.length = 3 ∧
    meaningfulScore (analyze_patch_content iniComparison)
      (analyze_file_changes iniComparison) = -15 ∧
    (classify_fork_meaningfulness (analyze_patch_content iniComparison)
      (analyze_file_changes iniComparison)).classification = "Not Meaningful" ∧
    (analyze_patch_content yamlComparison).config_only_changes = [] ∧
    (classify_fork_meaningfulness (analyze_patch_content yamlComparison)
      (analyze_file_changes yamlComparison)).classification = "Not Meaningful" := by
  decide

/-- C4 counterexample: one added line `+def foo():` yields TWO new-function
    entries (the python and java templates both match; the source breaks
    out of no template loop), and one added line `+class Foo:` yields FIVE
    new-class entries - refuting "at most one entry per line per
    category". -/
theorem claim_C4_counterexample :
    (analyze_patch_content pyComparison).new_functions_detected.length = 2 ∧
    (analyze_patch_content pyComparison).new_classes_detected.length = 5 ∧
    (lineFuncEntries "util.py".toList "+def foo():".toList).length = 2 ∧
    (lineClassEntries "util.py".toList "+class Foo:".toList).length = 5 := by
  decide

/-- C4 (amended: the extractor records one new-function entry per function
    template matching the line and one new-class entry per class template
    matching the line - all templates are tried, there is no first-match-wins
    across templates - while the function and class categories are checked
    independently). -/
theorem claim_C4 :
    ∀ (filename line : Str),
      (lineFuncEntries filename line).length =
        functionPatterns.countP (fun lp => (matchPatternAt lp.2 line).isSome) ∧
      (lineClassEntries filename line).length =
        classPatterns.countP (fun lp => (matchPatternAt lp.2 line).isSome) := by
  intro filename line
  constructor <;>
    simp [lineFuncEntries, lineClassEntries, length_filterMap_eq_countP,
      Option.isSome_map]

/-- C5 counterexample: with one changed file and the two categories
    testing+documentation, the source emits the "primarily documentation
    changes" sentence (its guard is `documentation present and at most two
    categories`), while the claim's ladder (documentation the ONLY category)
    prescribes the "minor or non-functional changes" sentence. -/
theorem claim_C5_counterexample :
    (classify_fork_meaningfulness emptyPatchAnalysis faDocTesting).summary ≠
      claimSummaryC5 emptyPatchAnalysis faDocTesting := by
  decide

/-- C5 (amended: in the not-meaningful branch the documentation sentence
    fires when documentation is among the categories and at most two
    categories are present): the verdict summary follows the fixed priority
    ladder exactly. -/
theorem claim_C5 :
    ∀ (pa : PatchAnalysis) (fa : FileAnalysis),
      (classify_fork_meaningfulness pa fa).summary = claimSummaryC5Amended pa fa := by
  intro pa fa
  rw [classify_summary_eq]
  simp only [claimSummaryC5Amended, classify_is_meaningful_iff,
    meaningfulSummary, notMeaningfulSummary]

/-- C6: the README delta extractor returns the all-empty result when the
    fork README is absent and whenever the computed new content is under 50
    characters; and on the concrete generic-tool example the extracted
    stated purpose contains "enabling offline retail analytics for grocery
    chains" (case-insensitively) and the business context is non-empty. -/
theorem claim_C6 :
    (∀ orig, analyze_readme_deeply orig none = emptyReadmeDelta) ∧
    (∀ orig fork, (readmeNewContent orig fork).length < 50 →
      analyze_readme_deeply orig (some fork) = emptyReadmeDelta) ∧
    isSubstr "enabling offline retail analytics for grocery chains".toList
      (lower ((analyze_readme_deeply (some toolReadmeOriginal)
        (some toolReadmeFork)).stated_purpose.getD [])) = true ∧
    truthyOpt (analyze_readme_deeply (some toolReadmeOriginal)
      (some toolReadmeFork)).business_context = true := by
  refine ⟨fun orig => rfl, ?_, by decide, by decide⟩
  intro orig fork h
  by_cases h1 : fork = [] <;> simp [analyze_readme_deeply, h1, h]

/-- C6 witness: the under-50-characters branch applied at a concrete tiny
    fork README. -/
theorem claim_C6_witness :
    analyze_readme_deeply none (some "x".toList) = emptyReadmeDelta :=
  claim_C6.2.1 none "x".toList (by decide)

/-- C7 counterexample: a signal set with strictly more enhanced functions
    but also one more configuration-only file scores -10 against the same
    one-file `FileAnalysis`, strictly below the empty signal set's 0: the
    claimed monotonicity fails as stated. -/
theorem claim_C7_counterexample :
    emptyPatchAnalysis.new_functions_detected.length ≤
      s7larger.new_functions_detected.length ∧
    emptyPatchAnalysis.new_classes_detected.length ≤
      s7larger.new_classes_detected.length ∧
    emptyPatchAnalysis.enhanced_functions.length <
      s7larger.enhanced_functions.length ∧
    emptyPatchAnalysis.environment_adjustments.length ≤
      s7larger.environment_adjustments.length ∧
    emptyPatchAnalysis.code_additions_count ≤ s7larger.code_additions_count ∧
    meaningfulScore s7larger faOneFile < meaningfulScore emptyPatchAnalysis faOneFile := by
  decide

/-- C7 (amended: monotonicity additionally requires the configuration-only
    file list not to grow - here: equal lengths): with the five counts
    pointwise non-decreasing and `config_only_changes` unchanged, the score
    is monotone. -/
theorem claim_C7 :
    ∀ (s1 s2 : PatchAnalysis) (fa : FileAnalysis),
      s1.new_functions_detected.length ≤ s2.new_functions_detected.length →
      s1.new_classes_detected.length ≤ s2.new_classes_detected.length →
      s1.enhanced_functions.length ≤ s2.enhanced_functions.length →
      s1.environment_adjustments.length ≤ s2.environment_adjustments.length →
      s1.code_additions_count ≤ s2.code_additions_count →
      s1.config_only_changes.length = s2.config_only_changes.length →
      meaningfulScore s1 fa ≤ meaningfulScore s2 fa := by
  intro s1 s2 fa h1 h2 h3 h4 h5 h6
  rw [meaningfulScore_closed, meaningfulScore_closed]
  simp only [claimScoreC1Amended, h6]
  split_ifs <;> omega

/-- C7 witness: the amended monotonicity applied at the empty signal set
    versus one extra new function. -/
theorem claim_C7_witness :
    meaningfulScore emptyPatchAnalysis emptyFileAnalysis ≤
      meaningfulScore s7func emptyFileAnalysis :=
  claim_C7 emptyPatchAnalysis s7func emptyFileAnalysis (by decide) (by decide)
    (by decide) (by decide) (by decide) (by decide)

/-- C8: the scoring and summary stages - classification verdict AND
    executive summary string - form a deterministic function of the
    comparison, the README pair and the collaborator-supplied records: two
    runs on identical inputs produce byte-identical outputs; and the
    structural signal lists are order-stable: the entries for a
    concatenation of file lists are the entries of the first followed by
    the entries of the second (input file order, then match order within
    each file). -/
theorem claim_C8 :
    (∀ (c c' : Option Comparison) (orig orig' fork fork' : Option Str)
       (fd fd' : ForkData) (ca ca' : CommitAnalysis) (da da' : DocAnalysis),
      c = c' → orig = orig' → fork = fork' → fd = fd' → ca = ca' → da = da' →
      runPipeline c orig fork fd ca da = runPipeline c' orig' fork' fd' ca' da') ∧
    (∀ (l1 l2 : List FileData),
      (patchFold (l1 ++ l2)).new_functions_detected =
        (patchFold l1).new_functions_detected ++ (patchFold l2).new_functions_detected ∧
      (patchFold (l1 ++ l2)).new_classes_detected =
        (patchFold l1).new_classes_detected ++ (patchFold l2).new_classes_detected) := by
  constructor
  · intro c c' orig orig' fork fork' fd fd' ca ca' da da' hc ho hf hfd hca hda
    rw [hc, ho, hf, hfd, hca, hda]
  · intro l1 l2
    refine ⟨?_, ?_⟩
    · simp only [patchFold, List.foldl_append]
      rw [foldl_processFile_nf]
      rfl
    · simp only [patchFold, List.foldl_append]
      rw [foldl_processFile_nc]
      rfl

/-- C8 witness: two runs of the full scoring-and-summary stage on the
    identical concrete comparison, README pair and collaborator records
    produce the identical verdict and executive summary. -/
theorem claim_C8_witness :
    runPipeline emptyComparison (some toolReadmeOriginal) (some toolReadmeFork)
      c8ForkData c8CommitAnalysis c8DocAnalysis
    = runPipeline emptyComparison (some toolReadmeOriginal) (some toolReadmeFork)
      c8ForkData c8CommitAnalysis c8DocAnalysis :=
  claim_C8.1 emptyComparison emptyComparison (some toolReadmeOriginal)
    (some toolReadmeOriginal) (some toolReadmeFork) (some toolReadmeFork)
    c8ForkData c8ForkData c8CommitAnalysis c8CommitAnalysis c8DocAnalysis
    c8DocAnalysis rfl rfl rfl rfl rfl rfl

/-- C9: an exception while analyzing one record is caught at the per-record
    loop boundary: the output has exactly one entry fewer per failed record
    than the number of records processed, and a failing record in the middle
    drops out while every other record's result is kept in order. -/
theorem claim_C9 :
    ∀ {α ε β : Type} (analyze : α → Except ε β),
      (∀ rs : List α,
        (processRecords analyze rs).length
          + rs.countP (fun r => !(exceptOk (analyze r))) = rs.length) ∧
      (∀ (l1 l2 : List α) (r : α), exceptOk (analyze r) = false →
        processRecords analyze (l1 ++ r :: l2)
          = processRecords analyze l1 ++ processRecords analyze l2) := by
  intro α ε β analyze
  constructor
  · intro rs
    induction rs with
    | nil => rfl
    | cons r rs ih =>
      have hcons : processRecords analyze (r :: rs)
          = processRecords analyze [r] ++ processRecords analyze rs :=
        processRecords_append analyze [r] rs
      rw [hcons]
      cases h : analyze r <;>
        simp_all [processRecords, List.countP_cons, exceptOk] <;> omega
  · intro l1 l2 r h
    rw [show l1 ++ r :: l2 = l1 ++ [r] ++ l2 by simp,
      processRecords_append analyze (l1 ++ [r]) l2,
      processRecords_append analyze l1 [r]]
    have hr : processRecords analyze [r] = [] := by
      cases hx : analyze r <;> simp_all [processRecords, exceptOk]
    rw [hr]
    simp

/-- C9 witness: the loop-boundary behavior applied at a concrete failing
    middle record. -/
theorem claim_C9_witness :
    processRecords c9analyze ([1] ++ 0 :: [2])
      = processRecords c9analyze [1] ++ processRecords c9analyze [2] :=
  (claim_C9 c9analyze).2 [1] [2] 0 (by decide)

/-- C10: the verdict's reasons list is never empty: every positive score
    contribution appends a reason, a meaningful band therefore carries at
    least one, and the Not Meaningful branch falls back to "No significant
    code changes detected". -/
theorem claim_C10 :
    ∀ (pa : PatchAnalysis) (fa : FileAnalysis),
      (classify_fork_meaningfulness pa fa).reasons ≠ [] := by
  intro pa fa
  by_cases hr : meaningfulReasons pa fa = []
  · have hs := reasons_nil_score_nonpos pa fa hr
    simp only [classify_fork_meaningfulness]
    split_ifs <;> simp_all <;> omega
  · simp only [classify_fork_meaningfulness]
    split_ifs <;> simp_all

end ForkInsights
